import Mathlib

/-!
Verification of the boot-image builder of `scripts/simple_boot.py`.

The script orchestrates three external steps: `dd` zero-fill of a 10 MiB
image, `nasm` assembly of an embedded boot-sector source, and a `dd`
sector copy into the image's first 512 bytes.  Bytes are modelled as
`Nat` (each in `[0, 256)` in practice), byte buffers as `List Nat`.
-/

/-- Typed error taxonomy of the spec's BootImageBuilder operations. -/
inductive BootError where
  | payloadTooLarge
  | invalidImageSize
  | imageTooSmall
  deriving DecidableEq, Repr

/-- Modelled from the spec: `buildBootSector` is the spec's pure operation;
the script has no such function.  Its source counterpart is the nasm
directives `times 510-($-$$) db 0` (zero-pad the sector to offset 510) and
`dw 0xaa55` (emit the little-endian signature word, bytes `0x55, 0xAA`)
at lines 42-43 of `scripts/simple_boot.py`, generalised over the payload:
a payload longer than 510 bytes fails (`PayloadTooLarge`; in nasm the
`times` count would be negative), otherwise the payload is zero-padded to
510 bytes and the two signature bytes are appended. -/
def buildBootSector (payload : List Nat) : Except BootError (List Nat) :=
  if payload.length > 510 then .error .payloadTooLarge
  else .ok (payload ++ List.replicate (510 - payload.length) 0 ++ [0x55, 0xAA])

/-- Modelled from the spec: `createDiskImage` is the spec's operation; the
script instead hardcodes `dd if=/dev/zero of=rustos.img bs=1M count=10`
(line 13), which produces `10 * 1024 * 1024` zero bytes.  The spec makes
the size a parameter, rejecting sizes below one sector. -/
def createDiskImage (sizeBytes : Nat) : Except BootError (List Nat) :=
  if sizeBytes < 512 then .error .invalidImageSize
  else .ok (List.replicate sizeBytes 0)

/-- Default image size: `dd bs=1M count=10` (line 13) writes 10 MiB. -/
def defaultImageSize : Nat := 10 * 1024 * 1024

/-- Modelled from the spec: `installBootSector` is the spec's operation; its
source counterpart is `dd if=bootloader.bin of=rustos.img bs=512 count=1
conv=notrunc` (line 53), which overwrites the first 512 bytes of the image
with the sector and leaves the rest untouched (`conv=notrunc` prevents
truncation).  The spec adds the `ImageTooSmall` validation. -/
def installBootSector (image sector : List Nat) : Except BootError (List Nat) :=
  if image.length < 512 then .error .imageTooSmall
  else .ok (sector ++ image.drop 512)

/-- C1: for every payload of at most 510 bytes, `buildBootSector` succeeds
with a 512-byte sector that starts with the payload verbatim, continues
with `510 - len(payload)` zero bytes up to offset 510, and ends with the
signature bytes `0x55` then `0xAA` at offsets 510 and 511. -/
theorem C1_buildBootSector_layout (p : List Nat) (h : p.length ≤ 510) :
    ∃ s, buildBootSector p = .ok s ∧
      s.length = 512 ∧
      s.take p.length = p ∧
      (s.drop p.length).take (510 - p.length) = List.replicate (510 - p.length) 0 ∧
      s.drop 510 = [0x55, 0xAA] ∧
      s.get? 510 = some 0x55 ∧ s.get? 511 = some 0xAA := by
  refine ⟨p ++ List.replicate (510 - p.length) 0 ++ [0x55, 0xAA], ?_, ?_, ?_, ?_, ?_, ?_, ?_⟩
  · simp [buildBootSector, Nat.not_lt.mpr h]
  · simp; omega
  · rw [List.append_assoc, List.take_left]
  · rw [List.append_assoc, List.drop_left,
      List.take_append_of_le_length (by simp), List.take_replicate]
    simp
  · have hlen : (p ++ List.replicate (510 - p.length) 0).length = 510 := by simp; omega
    rw [List.drop_left' hlen]
  · have hlen : (p ++ List.replicate (510 - p.length) 0).length = 510 := by simp; omega
    rw [List.get?_append_right (by omega), hlen]
    simp
  · have hlen : (p ++ List.replicate (510 - p.length) 0).length = 510 := by simp; omega
    rw [List.get?_append_right (by omega), hlen]
    simp

/-- Witness for C1 at the concrete two-byte payload `[0xFA, 0xF4]`
(`cli`; `hlt`). -/
theorem C1_buildBootSector_layout_witness :
    [0xFA, 0xF4].length ≤ 510 ∧
    ∃ s, buildBootSector [0xFA, 0xF4] = .ok s ∧
      s.length = 512 ∧
      s.take [0xFA, 0xF4].length = [0xFA, 0xF4] ∧
      (s.drop [0xFA, 0xF4].length).take (510 - [0xFA, 0xF4].length) =
        List.replicate (510 - [0xFA, 0xF4].length) 0 ∧
      s.drop 510 = [0x55, 0xAA] ∧
      s.get? 510 = some 0x55 ∧ s.get? 511 = some 0xAA :=
  ⟨by decide, C1_buildBootSector_layout [0xFA, 0xF4] (by decide)⟩

/-- C6: for every payload longer than 510 bytes, `buildBootSector` fails
with the `PayloadTooLarge` error and produces no sector. -/
theorem C6_payload_too_large (p : List Nat) (h : p.length > 510) :
    buildBootSector p = .error .payloadTooLarge := by
  simp [buildBootSector, h]

/-- Witness for C6 at a concrete 511-byte payload. -/
theorem C6_payload_too_large_witness :
    (List.replicate 511 0).length > 510 ∧
    buildBootSector (List.replicate 511 0) = .error .payloadTooLarge :=
  ⟨by rw [List.length_replicate]; norm_num,
    C6_payload_too_large (List.replicate 511 0) (by rw [List.length_replicate]; norm_num)⟩

/-- C7: `createDiskImage n` fails with `InvalidImageSize` exactly when
`n < 512`; for every `n ≥ 512` it produces an all-zero sequence of length
exactly `n`; the default size is 10,485,760 bytes (10 MiB). -/
theorem C7_createDiskImage_spec :
    (∀ n, createDiskImage n = .error .invalidImageSize ↔ n < 512) ∧
    (∀ n, 512 ≤ n → ∃ img, createDiskImage n = .ok img ∧
      img.length = n ∧ ∀ b ∈ img, b = 0) ∧
    defaultImageSize = 10485760 := by
  refine ⟨?_, ?_, by norm_num [defaultImageSize]⟩
  · intro n
    rcases Nat.lt_or_ge n 512 with h | h
    · simp [createDiskImage, h]
    · simp [createDiskImage, Nat.not_lt.mpr h]
  · intro n h
    refine ⟨List.replicate n 0, by simp [createDiskImage, Nat.not_lt.mpr h], by simp, ?_⟩
    intro b hb
    exact List.eq_of_mem_replicate hb

/-- Witness for C7 at the boundary size 512. -/
theorem C7_createDiskImage_spec_witness :
    512 ≤ 512 ∧ ∃ img, createDiskImage 512 = .ok img ∧
      img.length = 512 ∧ ∀ b ∈ img, b = 0 :=
  ⟨by decide, C7_createDiskImage_spec.2.1 512 (by decide)⟩

/-- C3: for every image of length at least 512 and every 512-byte sector,
`installBootSector` succeeds, preserves the image length, and leaves every
byte at offset ≥ 512 unchanged (the suffix from offset 512 is equal). -/
theorem C3_installBootSector_frame (image sector : List Nat)
    (himg : 512 ≤ image.length) (hsec : sector.length = 512) :
    ∃ out, installBootSector image sector = .ok out ∧
      out.length = image.length ∧
      out.drop 512 = image.drop 512 ∧
      ∀ i, 512 ≤ i → out.get? i = image.get? i := by
  refine ⟨sector ++ image.drop 512, ?_, ?_, ?_, ?_⟩
  · simp [installBootSector, Nat.not_lt.mpr himg]
  · simp [hsec]; omega
  · rw [List.drop_left' hsec]
  · intro i hi
    rw [List.get?_append_right (by omega), hsec, List.get?_drop, Nat.add_sub_cancel' hi]

/-- Witness for C3 at a concrete 513-byte image and 512-byte sector. -/
theorem C3_installBootSector_frame_witness :
    512 ≤ (List.replicate 513 9).length ∧ (List.replicate 512 1).length = 512 ∧
    ∃ out, installBootSector (List.replicate 513 9) (List.replicate 512 1) = .ok out ∧
      out.length = (List.replicate 513 9).length ∧
      out.drop 512 = (List.replicate 513 9).drop 512 ∧
      ∀ i, 512 ≤ i → out.get? i = (List.replicate 513 9).get? i :=
  ⟨by rw [List.length_replicate]; norm_num, by rw [List.length_replicate],
    C3_installBootSector_frame (List.replicate 513 9) (List.replicate 512 1)
      (by rw [List.length_replicate]; norm_num) (by rw [List.length_replicate])⟩

/-- C8: `installBootSector` is idempotent: installing the same 512-byte
sector twice yields the same image as installing it once. -/
theorem C8_installBootSector_idempotent (image sector : List Nat)
    (himg : 512 ≤ image.length) (hsec : sector.length = 512) :
    (installBootSector image sector).bind (fun img2 => installBootSector img2 sector) =
      installBootSector image sector := by
  have h1 : ¬ image.length < 512 := Nat.not_lt.mpr himg
  have h2 : ¬ (sector ++ image.drop 512).length < 512 := by
    simp [hsec]
  simp only [installBootSector, if_neg h1, Except.bind, if_neg h2]
  rw [List.drop_left' hsec]

/-- Witness for C8 at a concrete 600-byte image and 512-byte sector. -/
theorem C8_installBootSector_idempotent_witness :
    512 ≤ (List.replicate 600 3).length ∧ (List.replicate 512 7).length = 512 ∧
    (installBootSector (List.replicate 600 3) (List.replicate 512 7)).bind
        (fun img2 => installBootSector img2 (List.replicate 512 7)) =
      installBootSector (List.replicate 600 3) (List.replicate 512 7) :=
  ⟨by rw [List.length_replicate]; norm_num, by rw [List.length_replicate],
    C8_installBootSector_idempotent (List.replicate 600 3) (List.replicate 512 7)
      (by rw [List.length_replicate]; norm_num) (by rw [List.length_replicate])⟩

/-- C2: creating a 10 MiB disk image and installing a 512-byte boot sector
yields an image of exactly 10,485,760 bytes whose first 512 bytes are the
sector and whose bytes at offsets 512 .. 10,485,759 are all zero. -/
theorem C2_end_to_end_pipeline (sector : List Nat) (hsec : sector.length = 512) :
    ∃ img0 img, createDiskImage (10 * 1024 * 1024) = .ok img0 ∧
      installBootSector img0 sector = .ok img ∧
      img.length = 10485760 ∧
      img.take 512 = sector ∧
      ∀ i, 512 ≤ i → i < 10485760 → img.get? i = some 0 := by
  refine ⟨List.replicate (10 * 1024 * 1024) 0,
    sector ++ (List.replicate (10 * 1024 * 1024) 0).drop 512, ?_, ?_, ?_, ?_, ?_⟩
  · unfold createDiskImage
    rw [if_neg (by norm_num)]
  · unfold installBootSector
    rw [List.length_replicate, if_neg (by norm_num)]
  · rw [List.length_append, hsec, List.length_drop, List.length_replicate]
  · rw [List.take_left' hsec]
  · intro i h1 h2
    rw [List.get?_append_right (by omega), hsec, List.drop_replicate, List.get?_eq_getElem?,
      List.getElem?_replicate, if_pos (by omega)]

/-- Witness for C2 at the spec's scenario-2 sector
(payload `[0xFA, 0xF4]`, zero padding, signature). -/
theorem C2_end_to_end_pipeline_witness :
    ([0xFA, 0xF4] ++ List.replicate 508 0 ++ [0x55, 0xAA]).length = 512 ∧
    ∃ img0 img, createDiskImage (10 * 1024 * 1024) = .ok img0 ∧
      installBootSector img0 ([0xFA, 0xF4] ++ List.replicate 508 0 ++ [0x55, 0xAA]) = .ok img ∧
      img.length = 10485760 ∧
      img.take 512 = [0xFA, 0xF4] ++ List.replicate 508 0 ++ [0x55, 0xAA] ∧
      ∀ i, 512 ≤ i → i < 10485760 → img.get? i = some 0 :=
  ⟨by rw [List.length_append, List.length_append, List.length_replicate]; norm_num,
    C2_end_to_end_pipeline ([0xFA, 0xF4] ++ List.replicate 508 0 ++ [0x55, 0xAA])
      (by rw [List.length_append, List.length_append, List.length_replicate]; norm_num)⟩

/-- Filesystem state touched by the script: the three files it writes
(`rustos.img`, `bootloader.asm`, `bootloader.bin`); `none` means the file
is absent. -/
structure FS where
  rustosImg : Option (List Nat)
  bootloaderAsmFile : Option String
  bootloaderBin : Option (List Nat)

/-- Environment of one run: the outcome of the two external commands inside
the try block of `create_simple_bootable`.  `nasmResult = none` models the
`nasm` invocation raising (assembler missing, or assembly failure under
`check=True`); `some bin` models success with output bytes `bin`.
`ddOk = false` models the `dd` sector copy raising. -/
structure Env where
  nasmResult : Option (List Nat)
  ddOk : Bool

/-- Observable result of one run of `create_simple_bootable`: the returned
boolean, the final filesystem state, and the lines printed, in order. -/
structure RunResult where
  ok : Bool
  fs : FS
  output : List String

/-- The embedded assembler source string (lines 16-44 of
`scripts/simple_boot.py`) that the script writes to `bootloader.asm`. -/
def bootloader_asm : String :=
  "\nbits 16\norg 0x7c00\n\nstart:\n    ; Simple bootloader - just print message and halt\n    mov si, msg\n    call print_string\n    \n    ; Halt the CPU\n    cli\n    hlt\n    \nprint_string:\n    lodsb\n    or al, al\n    jz done\n    mov ah, 0x0e\n    int 0x10\n    jmp print_string\ndone:\n    ret\n    \nmsg db \x27RustOS Bootloader - Kernel loaded!\x27, 13, 10, 0\n\n; Boot signature\ntimes 510-($-$$) db 0\ndw 0xaa55\n"

/-- `dd if=bootloader.bin of=rustos.img bs=512 count=1 conv=notrunc`
(line 53): overwrite the first `min (len bin) 512` bytes of the image with
the corresponding bytes of `bin`; `conv=notrunc` keeps the rest. -/
def ddCopySector (bin img : List Nat) : List Nat :=
  bin.take 512 ++ img.drop (min bin.length 512)

/-- Translation of `create_simple_bootable` (lines 7-58 of
`scripts/simple_boot.py`), step by step:
1. print the banner (line 10);
2. `dd if=/dev/zero of=rustos.img bs=1M count=10` (line 13): write the
   10 MiB zero image to `rustos.img` (`os.system`, result ignored);
3. write the embedded source to `bootloader.asm` (lines 47-48);
4. try (lines 51-55): run nasm producing `bootloader.bin`, then dd-copy its
   first sector into `rustos.img`, print the success line, return True;
5. bare `except` (lines 56-58): on any exception from either command, print
   the NASM-unavailable line and return False. -/
def create_simple_bootable (env : Env) (fs0 : FS) : RunResult :=
  let fs1 : FS := { fs0 with rustosImg := some (List.replicate (10 * 1024 * 1024) 0) }
  let fs2 : FS := { fs1 with bootloaderAsmFile := some bootloader_asm }
  match env.nasmResult with
  | none =>
      { ok := false, fs := fs2,
        output := ["🚀 Creating RustOS Bootable Image...",
                   "❌ NASM not available, trying alternative approach..."] }
  | some bin =>
      let fs3 : FS := { fs2 with bootloaderBin := some bin }
      if env.ddOk then
        { ok := true,
          fs := { fs3 with
            rustosImg := some (ddCopySector bin (List.replicate (10 * 1024 * 1024) 0)) },
          output := ["🚀 Creating RustOS Bootable Image...",
                     "✅ Bootable image created: rustos.img"] }
      else
        { ok := false, fs := fs3,
          output := ["🚀 Creating RustOS Bootable Image...",
                     "❌ NASM not available, trying alternative approach..."] }

/-- Translation of the `__main__` block (lines 60-65): it calls
`create_simple_bootable`, prints one of two trailing messages, and falls off
the end of the script on both branches; `sys.exit` is never called and no
exception escapes, so the interpreter exits with code 0 either way.  The
first component is the process exit code, the second the full printed
output. -/
def mainRun (env : Env) (fs0 : FS) : Nat × List String :=
  let r := create_simple_bootable env fs0
  if r.ok then
    (0, r.output ++ ["🎉 RustOS bootable image ready!",
      "Test with: qemu-system-x86_64 -drive format=raw,file=rustos.img -display gtk"])
  else
    (0, r.output ++ ["ℹ️  Please install NASM assembler for bootloader creation"])

/-- C9: for every exception raised inside the assemble-and-copy try block —
whether the nasm invocation raises or the dd sector copy raises — the bare
`except` catches it, the NASM-unavailable message is printed, and the
function returns False; the printed output is identical in both failure
modes, so no error cause is distinguished at the public interface. -/
theorem C9_bare_except_uniform_failure (env : Env) (fs0 : FS)
    (h : env.nasmResult = none ∨ env.ddOk = false) :
    (create_simple_bootable env fs0).ok = false ∧
    (create_simple_bootable env fs0).output =
      ["🚀 Creating RustOS Bootable Image...",
       "❌ NASM not available, trying alternative approach..."] := by
  rcases h with h | h
  · constructor <;> simp only [create_simple_bootable, h]
  · cases hn : env.nasmResult with
    | none => constructor <;> simp only [create_simple_bootable, hn]
    | some bin =>
        constructor <;>
          simp only [create_simple_bootable, hn, h, Bool.false_eq_true, if_false]

/-- Witness for C9 on the run where nasm succeeds but the dd copy raises. -/
theorem C9_bare_except_uniform_failure_witness :
    ((⟨some [], false⟩ : Env).nasmResult = none ∨ (⟨some [], false⟩ : Env).ddOk = false) ∧
    ((create_simple_bootable ⟨some [], false⟩ ⟨none, none, none⟩).ok = false ∧
     (create_simple_bootable ⟨some [], false⟩ ⟨none, none, none⟩).output =
       ["🚀 Creating RustOS Bootable Image...",
        "❌ NASM not available, trying alternative approach..."]) :=
  ⟨Or.inr rfl, C9_bare_except_uniform_failure ⟨some [], false⟩ ⟨none, none, none⟩ (Or.inr rfl)⟩

/-- C10: on every invocation, `create_simple_bootable` leaves the embedded
assembly source in `bootloader.asm` — it is written before the assembly
attempt, so it is present after the call on the success path and on every
failure path — and whenever the nasm step succeeds with output `bin`,
`bootloader.bin` holds `bin` after the call (also when the later dd copy
fails). -/
theorem C10_bootloader_files_persist (env : Env) (fs0 : FS) :
    (create_simple_bootable env fs0).fs.bootloaderAsmFile = some bootloader_asm ∧
    ∀ bin, env.nasmResult = some bin →
      (create_simple_bootable env fs0).fs.bootloaderBin = some bin := by
  constructor
  · cases hn : env.nasmResult with
    | none => simp only [create_simple_bootable, hn]
    | some bin =>
        by_cases hd : env.ddOk <;>
          simp only [create_simple_bootable, hn, hd, Bool.false_eq_true, if_false, if_true]
  · intro bin hbin
    by_cases hd : env.ddOk <;>
      simp only [create_simple_bootable, hbin, hd, Bool.false_eq_true, if_false, if_true]

/-- Witness for C10 on the run where nasm succeeds with output `[1, 2]` and
the dd copy then raises. -/
theorem C10_bootloader_files_persist_witness :
    (create_simple_bootable ⟨some [1, 2], false⟩ ⟨none, none, none⟩).fs.bootloaderAsmFile =
        some bootloader_asm ∧
    (create_simple_bootable ⟨some [1, 2], false⟩ ⟨none, none, none⟩).fs.bootloaderBin =
        some [1, 2] :=
  ⟨(C10_bootloader_files_persist ⟨some [1, 2], false⟩ ⟨none, none, none⟩).1,
    (C10_bootloader_files_persist ⟨some [1, 2], false⟩ ⟨none, none, none⟩).2 [1, 2] rfl⟩

/-- C4 counterexample: on the concrete run where nasm raises, the run fails
(returns False) yet the destination path `rustos.img` still holds a
persisted image: the 10 MiB zero fill, which is not a fully built boot
image — its byte at offset 510 is 0, not the required signature byte 0x55.
So on failure the destination is neither absent nor fully written. -/
theorem C4_partial_image_persisted_counterexample :
    (create_simple_bootable ⟨none, true⟩ ⟨none, none, none⟩).ok = false ∧
    ∃ img, (create_simple_bootable ⟨none, true⟩ ⟨none, none, none⟩).fs.rustosImg = some img ∧
      img.get? 510 = some 0 ∧ ¬ img.get? 510 = some 0x55 := by
  refine ⟨rfl, List.replicate (10 * 1024 * 1024) 0, rfl, ?_, ?_⟩
  · rw [List.get?_eq_getElem?, List.getElem?_replicate, if_pos (by norm_num)]
  · rw [List.get?_eq_getElem?, List.getElem?_replicate, if_pos (by norm_num)]
    decide

/-- C4 amended: on every failing run where assembly raises, the destination
path is still persisted: `rustos.img` holds the full 10 MiB zero-filled
image written by the dd zero-fill step, with no boot sector installed.  The
script writes the destination file before attempting assembly, so a failure
leaves this partially built image on disk rather than leaving the
destination absent or fully written. -/
theorem C4_amended_zero_image_persisted (env : Env) (fs0 : FS)
    (h : env.nasmResult = none) :
    (create_simple_bootable env fs0).ok = false ∧
    (create_simple_bootable env fs0).fs.rustosImg =
      some (List.replicate (10 * 1024 * 1024) 0) := by
  constructor <;> simp only [create_simple_bootable, h]

/-- Witness for the amended C4 at the concrete failing run. -/
theorem C4_amended_zero_image_persisted_witness :
    (⟨none, true⟩ : Env).nasmResult = none ∧
    ((create_simple_bootable ⟨none, true⟩ ⟨none, none, none⟩).ok = false ∧
     (create_simple_bootable ⟨none, true⟩ ⟨none, none, none⟩).fs.rustosImg =
       some (List.replicate (10 * 1024 * 1024) 0)) :=
  ⟨rfl, C4_amended_zero_image_persisted ⟨none, true⟩ ⟨none, none, none⟩ rfl⟩

/-- C5 counterexample: on the concrete run where nasm raises, the pipeline
fails (`create_simple_bootable` returns False) yet the process exit code is
0, not non-zero: the `__main__` block never calls sys.exit. -/
theorem C5_exit_code_counterexample :
    (create_simple_bootable ⟨none, true⟩ ⟨none, none, none⟩).ok = false ∧
    (mainRun ⟨none, true⟩ ⟨none, none, none⟩).1 = 0 :=
  ⟨rfl, rfl⟩

/-- C5 amended: the top-level command exits with code 0 both when the image
is built successfully and on every failing run; failure is signalled only by
the printed messages and by the boolean `create_simple_bootable` returns,
never by a non-zero exit code. -/
theorem C5_amended_exit_code_always_zero (env : Env) (fs0 : FS) :
    (mainRun env fs0).1 = 0 := by
  unfold mainRun
  by_cases hd : (create_simple_bootable env fs0).ok <;> simp only [hd, if_true, if_false,
    Bool.false_eq_true]
